import Mathlib

/-!
Verification of the store-specific game launch orchestrator
(`src/main/services/bs-launcher/oculus-launcher.service.ts`).

The service is embedded shallowly: the Oculus library directory is a list
of directory entries, the external collaborators (process inspector,
library discovery, version repository, process spawner) are inputs of a
`LaunchEnv` record, and `launch` is a pure function from an environment to
the sequence of events the RxJS observable delivers to its subscriber,
paired with the resulting filesystem state.

Entries are modelled as non-broken: `readdir` of an entry listed in the
library succeeds and returns its `files`.
-/

set_option maxRecDepth 10000

namespace OculusLauncher

/-- Modelled from the spec: the canonical-directory name constant
`OCULUS_BS_DIR` lives in `main/constants`, which is not part of the
excerpt; the spec only fixes that it names the platform's canonical
install directory. -/
def OCULUS_BS_DIR : String := "hyperbolic-magnetism-beat-saber"

/-- Modelled from the spec: `OCULUS_BS_BACKUP_DIR` is "the canonical
install directory name with a fixed suffix/prefix distinguishing it as a
backup"; we take the suffix form. -/
def OCULUS_BS_BACKUP_DIR : String := OCULUS_BS_DIR ++ "-backup"

/-- Modelled from the spec: the executable name constant `BS_EXECUTABLE`
from `main/constants`, resolved inside the prepared install directory. -/
def BS_EXECUTABLE : String := "Beat Saber.exe"

/-- Modelled from the spec: `sToMs` from `shared/helpers/time.helpers`
converts seconds to milliseconds. -/
def sToMs (s : Nat) : Nat := s * 1000

/-- The fixed discovery timeout used by the service: `sToMs(30)`. -/
def OCULUS_LIB_TIMEOUT_MS : Nat := sToMs 30

/-- A directory entry of the Oculus library directory, as `readdir` with
`withFileTypes` exposes it: its name, whether `isJunction` reports it as a
directory link, for a junction the target it points to, and the file
names `readdir` of the entry itself returns. -/
structure Dirent where
  name : String
  isJunction : Bool
  target : Option String := none
  files : List String
deriving Repr, DecidableEq

/-- JavaScript's `String.prototype.startsWith`, as a structural test on
the character lists of the two strings. -/
def strStartsWith (s pre : String) : Bool :=
  pre.data.isPrefixOf s.data

/-- The cleanup predicate of `deleteBsSymlinks`, spelled out: a directory
link whose name carries the canonical-directory prefix and whose contents
include the ownership marker `metadata.config`. -/
def isBsmSymlink (d : Dirent) : Bool :=
  d.isJunction && strStartsWith d.name OCULUS_BS_DIR && d.files.contains "metadata.config"

/-- `fs-extra`'s `rename`: fails when the source is missing or an entry
already bears the destination name, otherwise changes the entry's name in
place — contents move with the entry, nothing is copied. -/
def renameEntry (es : List Dirent) (src dst : String) : Except String (List Dirent) :=
  match es.find? (fun d => d.name == src) with
  | none => .error ("ENOENT, rename " ++ src)
  | some _ =>
    if es.any (fun d => d.name == dst) then
      .error ("EEXIST, rename " ++ src)
    else
      .ok (es.map (fun d => if d.name == src then { d with name := dst } else d))

/-- `fs-extra`'s `symlink(target, linkPath, "junction")`: fails when an
entry already exists at `linkPath`, otherwise appends a junction whose
visible contents are the target directory's files. -/
def symlinkCreate (es : List Dirent) (nm tgt : String) (tgtFiles : List String) :
    Except String (List Dirent) :=
  if es.any (fun d => d.name == nm) then
    .error ("EEXIST, symlink " ++ nm)
  else
    .ok (es ++ [{ name := nm, isJunction := true, target := some tgt, files := tgtFiles }])

/-- Modelled from the spec: `OculusService.getGameFolder(dirName)` is the
install-path discovery leaf (`resolveInstallPath`-style): it yields the
folder's path when a folder of that name exists in the library, and a
null result otherwise. -/
def getGameFolder (es : List Dirent) (dirName : String) : Option String :=
  if es.any (fun d => d.name == dirName) then some dirName else none

/-- Outcome of the `oculusLib$` ReplaySubject as seen by a subscriber:
either it emits a value (the discovered library path, or null) after some
delay, or it never emits. The service's constructor converts discovery
errors into a null emission before they reach the subject. -/
inductive DiscoveryOutcome where
  | emits (afterMs : Nat) (value : Option String)
  | hangs
deriving Repr, DecidableEq

/-- `lastValueFrom(oculusLib$.pipe(take(1), timeout(sToMs(30)),
catchError(() => of(null))))`: the first emission when it arrives within
the timeout, and the null fallback on timeout (late emission or no
emission at all). -/
def awaitOculusLib (d : DiscoveryOutcome) : Option String :=
  match d with
  | .emits t v => if t ≤ OCULUS_LIB_TIMEOUT_MS then v else none
  | .hangs => none

/-- The selection pipeline of `deleteBsSymlinks`: of the library's
entries keep the junctions, of those the ones whose name starts with the
canonical prefix, of those the ones whose contents include
`metadata.config`. -/
def bsmSymlinksOf (libContents : List Dirent) : List Dirent :=
  ((libContents.filter (fun d => d.isJunction)).filter
      (fun d => strStartsWith d.name OCULUS_BS_DIR)).filter
    (fun d => d.files.contains "metadata.config")

/-- `deleteBsSymlinks`: resolve the library path (with timeout fallback);
fail when it is null/empty or does not exist; otherwise keep of the
library's entries the junctions, of those the ones whose name starts with
the canonical prefix, of those the ones containing `metadata.config`, and
unlink exactly the entries so selected. -/
def deleteBsSymlinks (oculusLibPath : Option String) (libExists : Bool)
    (libContents : List Dirent) : Except String (List Dirent) :=
  match oculusLibPath with
  | none => .error "Oculus library not found, deleteBsSymlinks"
  | some p =>
    if p == "" || !libExists then
      .error "Oculus library not found, deleteBsSymlinks"
    else
      let junctions := libContents.filter (fun d => d.isJunction)
      let bsSymlinks := junctions.filter (fun d => strStartsWith d.name OCULUS_BS_DIR)
      let bsmSymlinks := bsSymlinks.filter (fun d => d.files.contains "metadata.config")
      .ok (libContents.filter (fun d => !(bsmSymlinks.any (fun s => s.name == d.name))))

/-- `backupOriginalBeatSaber`: a no-op when `getGameFolder` finds no
canonical directory, otherwise a `rename` of the canonical directory to
the backup name. -/
def backupOriginalBeatSaber (es : List Dirent) : Except String (List Dirent) :=
  match getGameFolder es OCULUS_BS_DIR with
  | none => .ok es
  | some _ => renameEntry es OCULUS_BS_DIR OCULUS_BS_BACKUP_DIR

/-- `restoreOriginalBeatSaber`: a no-op when no backup directory exists
(`pathExists` of a null path is false), otherwise a `rename` of the
backup back to the canonical name. -/
def restoreOriginalBeatSaber (es : List Dirent) : Except String (List Dirent) :=
  match getGameFolder es OCULUS_BS_BACKUP_DIR with
  | none => .ok es
  | some _ => renameEntry es OCULUS_BS_BACKUP_DIR OCULUS_BS_DIR

/-- Modelled from the spec: the error-taxonomy kinds of §7 under the
names the source references on `BSLaunchError` (`shared/models/bs-launch`
is not part of the excerpt). `BS_ALREADY_RUNNING` is AlreadyRunning,
`OCULUS_LIB_NOT_FOUND` is PlatformLibraryNotFound, `BS_NOT_FOUND` is
ExecutableNotFound, `BS_EXIT_ERROR` is ProcessSpawnError,
`UNKNOWN_ERROR` is Unknown; `LINK_CREATION_ERROR` is the spec's
LinkCreationError kind, referenced by no code in the excerpt. -/
inductive BSLaunchError where
  | BS_ALREADY_RUNNING
  | OCULUS_LIB_NOT_FOUND
  | BS_NOT_FOUND
  | BS_EXIT_ERROR
  | UNKNOWN_ERROR
  | LINK_CREATION_ERROR
deriving Repr, DecidableEq

/-- An error in flight inside the pipeline: either a plain `Error` (raw,
unclassified) or a `CustomError` carrying a taxonomy code. -/
inductive LaunchErr where
  | raw (msg : String)
  | custom (code : BSLaunchError) (msg : String)
deriving Repr, DecidableEq

/-- Modelled from the spec: `CustomError.fromError(err, code)` wraps an
unclassified error with the given taxonomy code and keeps an error that
is already a `CustomError` as it stands (§7: errors are reclassified into
the fixed taxonomy; already-classified ones pass through). -/
def CustomError.fromError (err : LaunchErr) (code : BSLaunchError) : LaunchErr :=
  match err with
  | .raw m => .custom code m
  | .custom c m => .custom c m

/-- The lifecycle event kinds the excerpt emits (`BSLaunchEvent`). -/
inductive BSLaunchEvent where
  | BS_LAUNCHING
deriving Repr, DecidableEq

/-- What the observable delivers to its single subscriber: `next` data
events followed by one terminal signal, either `error` or `complete`
(after `obs.error` the `obs.complete()` of the `finally` block is a
closed-subscriber no-op). -/
inductive StreamEvent where
  | next (ev : BSLaunchEvent)
  | errored (e : LaunchErr)
  | completed
deriving Repr, DecidableEq

/-- The external world as one launch request observes it: the process
inspector's answer (which may reject), the library-discovery outcome, the
library root's existence and contents, the requested version's
`oculus` flag, the version path the Version Repository resolves together
with that directory's files, and the spawn step's outcome. -/
structure LaunchEnv where
  bsRunning : Except Unit Bool
  discovery : DiscoveryOutcome
  libExists : Bool
  entries : List Dirent
  versionIsOculus : Bool
  versionPath : String
  versionFiles : List String
  spawn : Except String Int
deriving Repr

/-- `await taskRunning(BS_EXECUTABLE).catch(() => false)`: a rejected
inspection is observed as "not running". -/
def observedRunning (r : Except Unit Bool) : Bool :=
  match r with
  | .ok b => b
  | .error _ => false

/-- The raw `TypeError` message `path.join` raises when the prepared path
is null (the missing-`await` path of `prepareOriginalVersion`). -/
def pathJoinTypeErrorMsg : String :=
  "The \x22path\x22 argument must be of type string. Received null"

/-- `prepareOriginalVersion`: restore the backup, then return
`getGameFolder(OCULUS_BS_DIR)`. The source omits `await` on that call, so
its null-check tests a promise (always truthy) and never fires: a null
folder is returned as-is instead of raising "path not found". The pair's
second component is the filesystem after the step. -/
def prepareOriginalVersion (es : List Dirent) :
    Except LaunchErr (Option String) × List Dirent :=
  match restoreOriginalBeatSaber es with
  | .error m => (.error (.raw m), es)
  | .ok es1 => (.ok (getGameFolder es1 OCULUS_BS_DIR), es1)

/-- `prepareDowngradedVersion`: await the library (timeout fallback
null), fail on a falsy result, back up the canonical directory, then
create the junction at the canonical location pointing at the version
path the Version Repository resolved. -/
def prepareDowngradedVersion (env : LaunchEnv) (es : List Dirent) :
    Except LaunchErr (Option String) × List Dirent :=
  match awaitOculusLib env.discovery with
  | none => (.error (.raw "No Oculus library found"), es)
  | some p =>
    if p == "" then
      (.error (.raw "No Oculus library found"), es)
    else
      match backupOriginalBeatSaber es with
      | .error m => (.error (.raw m), es)
      | .ok es1 =>
        match symlinkCreate es1 OCULUS_BS_DIR env.versionPath env.versionFiles with
        | .error m => (.error (.raw m), es1)
        | .ok es2 => (.ok (some OCULUS_BS_DIR), es2)

/-- The pipeline from the preparation step on: pick the strategy mode
from `version.oculus`, wrap a preparation failure via
`CustomError.throw(err, OCULUS_LIB_NOT_FOUND)`, join the executable path
(a null prepared path raises the raw `path.join` TypeError, which the
final catch wraps as `UNKNOWN_ERROR`), check the executable exists, emit
`BS_LAUNCHING`, spawn, and wrap a spawn failure as `BS_EXIT_ERROR`. -/
def launchAfterCleanup (env : LaunchEnv) (es : List Dirent) :
    List StreamEvent × List Dirent :=
  match (if env.versionIsOculus then prepareOriginalVersion es
         else prepareDowngradedVersion env es) with
  | (.error e, es1) =>
    ([.errored (CustomError.fromError e .OCULUS_LIB_NOT_FOUND)], es1)
  | (.ok none, es1) =>
    ([.errored (.custom .UNKNOWN_ERROR pathJoinTypeErrorMsg)], es1)
  | (.ok (some bsPath), es1) =>
    let exeExists :=
      match es1.find? (fun d => d.name == bsPath) with
      | some d => d.files.contains BS_EXECUTABLE
      | none => false
    if !exeExists then
      ([.errored (.custom .BS_NOT_FOUND ("BS Path not exist " ++ bsPath))], es1)
    else
      match env.spawn with
      | .ok _ => ([.next .BS_LAUNCHING, .completed], es1)
      | .error m => ([.next .BS_LAUNCHING, .errored (.custom .BS_EXIT_ERROR m)], es1)

/-- `launch`: the full pipeline. The exclusivity check fails the stream
with `BS_ALREADY_RUNNING`; the stale-cleanup step runs `deleteBsSymlinks`
and swallows its failure (`.catch(err => log.error(...))`, filesystem
untouched); the remainder is `launchAfterCleanup`. -/
def launch (env : LaunchEnv) : List StreamEvent × List Dirent :=
  if observedRunning env.bsRunning then
    ([.errored (.custom .BS_ALREADY_RUNNING
        "Cannot start two instance of Beat Saber for Oculus")], env.entries)
  else
    let es1 :=
      match deleteBsSymlinks (awaitOculusLib env.discovery) env.libExists env.entries with
      | .ok es => es
      | .error _ => env.entries
    launchAfterCleanup env es1

/-- Sample entry: the platform's original install directory. -/
def entOriginalDir : Dirent :=
  { name := OCULUS_BS_DIR, isJunction := false, files := [BS_EXECUTABLE] }

/-- Sample entry: the backed-up original install directory. -/
def entBackupDir : Dirent :=
  { name := OCULUS_BS_BACKUP_DIR, isJunction := false, files := [BS_EXECUTABLE] }

/-- Sample entry: an orchestrator-owned managed link (junction, canonical
name, ownership marker among its contents). -/
def entManagedLink : Dirent :=
  { name := OCULUS_BS_DIR, isJunction := true, target := some "bsmVersions/1.29.1",
    files := ["metadata.config", BS_EXECUTABLE] }

/-- Sample entry: a foreign junction whose name matches the canonical
prefix but which carries no ownership marker. -/
def entForeignLink : Dirent :=
  { name := OCULUS_BS_DIR ++ "-custom", isJunction := true, files := ["CustomLevels"] }

/-- Sample environment: a healthy launch request for a managed version. -/
def envBase : LaunchEnv :=
  { bsRunning := .ok false
    discovery := .emits 5 (some "oculusLib")
    libExists := true
    entries := []
    versionIsOculus := false
    versionPath := "bsmVersions/1.29.1"
    versionFiles := [BS_EXECUTABLE, "metadata.config"]
    spawn := .ok 0 }

/-- Sample environment: the target executable is reported running. -/
def envRunning : LaunchEnv :=
  { envBase with bsRunning := .ok true, entries := [entOriginalDir] }

/-- Sample environment: library discovery only emits after the timeout. -/
def envLate : LaunchEnv :=
  { envBase with discovery := .emits 40000 (some "lateLib"), entries := [entOriginalDir] }

/-- Sample environment: a conflicting entry sits at the canonical
location while the backup slot is occupied as well. -/
def envConflict : LaunchEnv :=
  { envBase with entries := [entOriginalDir, entBackupDir] }

/-- Sample environment: discovery hangs (so the stale-cleanup step
fails), while a native-mode launch from a backed-up original is
requested. -/
def envCleanupFails : LaunchEnv :=
  { envBase with discovery := .hangs, versionIsOculus := true, entries := [entBackupDir] }

/-- Sample environment: the process-inspector query itself rejects. -/
def envInspectorFails : LaunchEnv :=
  { envBase with bsRunning := .error (), entries := [entBackupDir] }

/-- Sample environment: a native-mode launch while discovery hangs (so
the stale-cleanup step fails, non-fatally), no backup exists, and a stale
orchestrator-owned junction sits at the canonical install location. -/
def envStaleMarker : LaunchEnv :=
  { envBase with discovery := .hangs, versionIsOculus := true, entries := [entManagedLink] }

/-- A terminal signal of the stream: an error or completion. -/
def isTerminal (e : StreamEvent) : Bool :=
  match e with
  | .errored _ => true
  | .completed => true
  | .next _ => false

/-- An event is classified when it is not an error carrying a raw,
taxonomy-less payload. -/
def isClassified (e : StreamEvent) : Bool :=
  match e with
  | .errored (.raw _) => false
  | _ => true

theorem fromError_isCustom (e : LaunchErr) (k : BSLaunchError) :
    ∃ c m, CustomError.fromError e k = .custom c m := by
  cases e <;> exact ⟨_, _, rfl⟩

/-- **C2.** A launch request issued while the target executable is
reported running emits exactly one event, the terminal
`Failed(BS_ALREADY_RUNNING)`, and leaves the filesystem untouched: no
link deletion, no backup or restore, no link creation. -/
theorem launch_alreadyRunning_single_failure_no_mutation (env : LaunchEnv)
    (h : env.bsRunning = .ok true) :
    launch env =
      ([.errored (.custom .BS_ALREADY_RUNNING
          "Cannot start two instance of Beat Saber for Oculus")], env.entries) := by
  unfold launch
  simp [observedRunning, h]

theorem launch_alreadyRunning_witness :
    launch envRunning =
      ([.errored (.custom .BS_ALREADY_RUNNING
          "Cannot start two instance of Beat Saber for Oculus")], envRunning.entries) :=
  launch_alreadyRunning_single_failure_no_mutation envRunning rfl

/-- **C9.** A failing stale-cleanup step never aborts the pipeline: when
`deleteBsSymlinks` rejects, `launch` behaves exactly as the remainder of
the pipeline (preparation, existence check, spawn) run on the untouched
filesystem. -/
theorem launch_cleanup_failure_not_fatal (env : LaunchEnv) (m : String)
    (hrun : observedRunning env.bsRunning = false)
    (hclean : deleteBsSymlinks (awaitOculusLib env.discovery) env.libExists env.entries
      = .error m) :
    launch env = launchAfterCleanup env env.entries := by
  unfold launch
  simp [hrun, hclean]

theorem launch_cleanup_failure_not_fatal_witness :
    launch envCleanupFails = launchAfterCleanup envCleanupFails envCleanupFails.entries ∧
    launch envCleanupFails = ([.next .BS_LAUNCHING, .completed], [entOriginalDir]) :=
  ⟨launch_cleanup_failure_not_fatal envCleanupFails
      "Oculus library not found, deleteBsSymlinks" rfl rfl,
   by rfl⟩

/-- **C10.** When the process-inspector query itself rejects, `launch`
treats the executable as not running and proceeds exactly as it would
had the inspector answered false. -/
theorem launch_inspector_rejection_treated_as_not_running (env : LaunchEnv)
    (h : env.bsRunning = .error ()) :
    launch env = launch { env with bsRunning := .ok false } := by
  unfold launch
  rw [h]
  rfl

theorem launch_inspector_rejection_witness :
    launch envInspectorFails = launch { envInspectorFails with bsRunning := .ok false } :=
  launch_inspector_rejection_treated_as_not_running envInspectorFails rfl

theorem mem_bsmSymlinksOf (es : List Dirent) (d : Dirent) :
    d ∈ bsmSymlinksOf es ↔ d ∈ es ∧ isBsmSymlink d = true := by
  unfold bsmSymlinksOf
  simp only [List.mem_filter, isBsmSymlink, Bool.and_eq_true]
  tauto

theorem deleteBsSymlinks_eq (p : String) (hp : (p == "") = false) (es : List Dirent) :
    deleteBsSymlinks (some p) true es =
      .ok (es.filter
        (fun d => !((bsmSymlinksOf es).any (fun s => s.name == d.name)))) := by
  unfold deleteBsSymlinks bsmSymlinksOf
  simp [hp]

theorem deleteBsSymlinks_ok_shape (p : String) (ex : Bool) (es es' : List Dirent)
    (h : deleteBsSymlinks (some p) ex es = .ok es') :
    (p == "") = false ∧ ex = true ∧
    es' = es.filter (fun d => !((bsmSymlinksOf es).any (fun s => s.name == d.name))) := by
  cases hp : (p == "") with
  | true => unfold deleteBsSymlinks at h; simp [hp] at h
  | false =>
    cases ex with
    | false => unfold deleteBsSymlinks at h; simp [hp] at h
    | true =>
      rw [deleteBsSymlinks_eq p hp es] at h
      injection h with h
      exact ⟨rfl, rfl, h.symm⟩

theorem mem_deleteBs_not_bsm (es : List Dirent) (d : Dirent)
    (hd : d ∈ es.filter
      (fun d => !((bsmSymlinksOf es).any (fun s => s.name == d.name)))) :
    isBsmSymlink d = false := by
  rw [List.mem_filter] at hd
  obtain ⟨hmem, hkeep⟩ := hd
  by_contra hbsm
  rw [Bool.not_eq_false] at hbsm
  have hany : (bsmSymlinksOf es).any (fun s => s.name == d.name) = true := by
    rw [List.any_eq_true]
    exact ⟨d, (mem_bsmSymlinksOf es d).mpr ⟨hmem, hbsm⟩, by simp⟩
  rw [hany] at hkeep
  simp at hkeep

theorem deleteBs_result_no_bsm (es : List Dirent) :
    bsmSymlinksOf (es.filter
      (fun d => !((bsmSymlinksOf es).any (fun s => s.name == d.name)))) = [] := by
  rw [List.eq_nil_iff_forall_not_mem]
  intro d hd
  rw [mem_bsmSymlinksOf] at hd
  obtain ⟨hmem, hbsm⟩ := hd
  rw [mem_deleteBs_not_bsm es d hmem] at hbsm
  exact absurd hbsm (by simp)

/-- **C3.** The link-removal operation deletes exactly the directory
links that match the canonical-directory prefix and contain the ownership
marker: given distinct entry names, an entry survives the call if and
only if it is not a marker-bearing prefix-matching junction, so no link
not owned by the orchestrator is ever deleted. -/
theorem deleteBsSymlinks_spares_unmarked (p : String) (es es' : List Dirent)
    (hnd : (es.map Dirent.name).Nodup)
    (h : deleteBsSymlinks (some p) true es = .ok es') :
    ∀ d ∈ es, (d ∈ es' ↔ isBsmSymlink d = false) := by
  obtain ⟨-, -, hes'⟩ := deleteBsSymlinks_ok_shape p true es es' h
  subst hes'
  intro d hd
  constructor
  · exact fun hmem => mem_deleteBs_not_bsm es d hmem
  · intro hnb
    rw [List.mem_filter]
    refine ⟨hd, ?_⟩
    rw [Bool.not_eq_eq_eq_not, Bool.not_true, List.any_eq_false]
    intro s hs
    rw [mem_bsmSymlinksOf] at hs
    obtain ⟨hsmem, hsbsm⟩ := hs
    intro hname
    rw [beq_iff_eq] at hname
    have : s = d := List.inj_on_of_nodup_map hnd hsmem hd hname
    subst this
    rw [hsbsm] at hnb
    exact absurd hnb (by simp)

theorem deleteBsSymlinks_spares_unmarked_witness :
    (entForeignLink ∈ ([entForeignLink] : List Dirent) ↔ isBsmSymlink entForeignLink = false) ∧
    (entManagedLink ∈ ([entForeignLink] : List Dirent) ↔ isBsmSymlink entManagedLink = false) :=
  ⟨deleteBsSymlinks_spares_unmarked "oculusLib" [entManagedLink, entForeignLink]
      [entForeignLink] (by decide) (by rfl) entForeignLink (by decide),
   deleteBsSymlinks_spares_unmarked "oculusLib" [entManagedLink, entForeignLink]
      [entForeignLink] (by decide) (by rfl) entManagedLink (by decide)⟩

/-- **C4.** `deleteBsSymlinks` is idempotent: when a first call succeeds,
running it again on the resulting library contents succeeds and changes
nothing; and when there is nothing to remove, the call is a no-op rather
than an error. -/
theorem deleteBsSymlinks_idempotent (p : String) (es es' : List Dirent)
    (h : deleteBsSymlinks (some p) true es = .ok es') :
    deleteBsSymlinks (some p) true es' = .ok es' ∧
    (bsmSymlinksOf es = [] → es' = es) := by
  obtain ⟨hp, -, hes'⟩ := deleteBsSymlinks_ok_shape p true es es' h
  constructor
  · rw [deleteBsSymlinks_eq p hp es']
    subst hes'
    rw [deleteBs_result_no_bsm es]
    simp
  · intro hno
    subst hes'
    rw [hno]
    simp

theorem deleteBsSymlinks_idempotent_witness :
    deleteBsSymlinks (some "oculusLib") true [entForeignLink, entOriginalDir]
      = .ok [entForeignLink, entOriginalDir] ∧
    (bsmSymlinksOf [entForeignLink, entOriginalDir] = [] →
      [entForeignLink, entOriginalDir] = [entForeignLink, entOriginalDir]) :=
  deleteBsSymlinks_idempotent "oculusLib" [entForeignLink, entOriginalDir]
    [entForeignLink, entOriginalDir] (by rfl)

theorem launchAfterCleanup_shape (env : LaunchEnv) (es : List Dirent) :
    ((launchAfterCleanup env es).1.filter isTerminal).length = 1 ∧
    ∀ e ∈ (launchAfterCleanup env es).1, isClassified e = true := by
  unfold launchAfterCleanup
  split
  · next e es1 heq =>
    obtain ⟨c, m, hc⟩ := fromError_isCustom e .OCULUS_LIB_NOT_FOUND
    rw [hc]
    simp [isTerminal, isClassified]
  · simp [isTerminal, isClassified]
  · next bsPath es1 heq =>
    dsimp only
    split
    · simp [isTerminal, isClassified]
    · cases env.spawn <;> simp [isTerminal, isClassified]

/-- **C1.** Every launch request's event stream carries exactly one
terminal event (hence at most one), and every event of the stream —
in particular a terminal failure — carries a taxonomy kind rather than a
raw, unclassified error. -/
theorem launch_single_classified_terminal (env : LaunchEnv) :
    ((launch env).1.filter isTerminal).length = 1 ∧
    ∀ e ∈ (launch env).1, isClassified e = true := by
  unfold launch
  split
  · simp [isTerminal, isClassified]
  · exact launchAfterCleanup_shape env _

/-- **C5.** When platform-library discovery does not resolve within the
fixed `sToMs 30 = 30000` millisecond timeout (or errors, which the
subject converts to a null emission), the preparation step observes the
null fallback, and a managed-mode launch terminates with the single
`Failed(OCULUS_LIB_NOT_FOUND)` event — the pipeline does not block on
discovery. -/
theorem launch_discovery_timeout_failed (env : LaunchEnv)
    (hrun : observedRunning env.bsRunning = false)
    (hmode : env.versionIsOculus = false)
    (hdisc : ∀ t v, env.discovery = .emits t v → OCULUS_LIB_TIMEOUT_MS < t ∨ v = none) :
    awaitOculusLib env.discovery = none ∧
    OCULUS_LIB_TIMEOUT_MS = 30000 ∧
    launch env =
      ([.errored (.custom .OCULUS_LIB_NOT_FOUND "No Oculus library found")], env.entries) := by
  have hnone : awaitOculusLib env.discovery = none := by
    cases hd : env.discovery with
    | hangs => rfl
    | emits t v =>
      rcases hdisc t v hd with h | h
      · simp only [awaitOculusLib]
        rw [if_neg (Nat.not_le.mpr h)]
      · subst h
        simp [awaitOculusLib]
  refine ⟨hnone, by norm_num [OCULUS_LIB_TIMEOUT_MS, sToMs], ?_⟩
  have hclean : deleteBsSymlinks (awaitOculusLib env.discovery) env.libExists env.entries
      = .error "Oculus library not found, deleteBsSymlinks" := by
    rw [hnone]; rfl
  unfold launch
  rw [hrun, hclean]
  unfold launchAfterCleanup
  rw [hmode]
  unfold prepareDowngradedVersion
  rw [hnone]
  rfl

theorem launch_discovery_timeout_failed_witness :
    awaitOculusLib envLate.discovery = none ∧
    OCULUS_LIB_TIMEOUT_MS = 30000 ∧
    launch envLate =
      ([.errored (.custom .OCULUS_LIB_NOT_FOUND "No Oculus library found")], envLate.entries) :=
  launch_discovery_timeout_failed envLate rfl rfl
    (by
      intro t v h
      rw [show envLate.discovery = DiscoveryOutcome.emits 40000 (some "lateLib") from rfl] at h
      injection h with h1 h2
      subst h1
      exact Or.inl (by decide))

theorem find?_isSome_of_any (es : List Dirent) (nm : String)
    (h : es.any (fun d => d.name == nm) = true) :
    ∃ e, es.find? (fun d => d.name == nm) = some e := by
  cases hfs : es.find? (fun d => d.name == nm) with
  | some e => exact ⟨e, rfl⟩
  | none =>
    obtain ⟨x, hx, hpx⟩ := List.any_eq_true.mp h
    rw [List.find?_eq_none] at hfs
    exact absurd hpx (by simpa using hfs x hx)

theorem prepareDowngraded_noCanonical_eq (env : LaunchEnv) (es : List Dirent) (p : String)
    (hlib : awaitOculusLib env.discovery = some p) (hp : (p == "") = false)
    (hcanon : es.any (fun d => d.name == OCULUS_BS_DIR) = false) :
    prepareDowngradedVersion env es =
      (.ok (some OCULUS_BS_DIR),
       es ++ [{ name := OCULUS_BS_DIR, isJunction := true,
                target := some env.versionPath, files := env.versionFiles }]) := by
  unfold prepareDowngradedVersion backupOriginalBeatSaber getGameFolder symlinkCreate
  simp [hlib, hp, hcanon]

theorem deleteBs_ok_mem_not_bsm (p : String) (ex : Bool) (es es1 : List Dirent)
    (h : deleteBsSymlinks (some p) ex es = .ok es1) :
    ∀ d ∈ es1, isBsmSymlink d = false := by
  obtain ⟨-, -, hes⟩ := deleteBsSymlinks_ok_shape p ex es es1 h
  subst hes
  exact fun d hd => mem_deleteBs_not_bsm es d hd

theorem backup_strStartsWith_canonical :
    strStartsWith OCULUS_BS_BACKUP_DIR OCULUS_BS_DIR = true := by decide

theorem canonical_strStartsWith_canonical :
    strStartsWith OCULUS_BS_DIR OCULUS_BS_DIR = true := by decide

/-- **C6 (counterexample).** With a conflicting entry at the canonical
install location (and the backup slot occupied, so the backup step cannot
move it aside), a managed-mode launch does fail — but the terminal event
carries `OCULUS_LIB_NOT_FOUND` (the blanket wrap of every preparation
error), not the `LINK_CREATION_ERROR` kind the claim names; no event of
the stream carries `LINK_CREATION_ERROR`. -/
theorem launch_conflict_counterexample :
    launch envConflict =
      ([.errored (.custom .OCULUS_LIB_NOT_FOUND ("EEXIST, rename " ++ OCULUS_BS_DIR))],
        envConflict.entries) ∧
    ∀ e ∈ (launch envConflict).1, ∀ m, e ≠ .errored (.custom .LINK_CREATION_ERROR m) := by
  have h1 : launch envConflict =
      ([.errored (.custom .OCULUS_LIB_NOT_FOUND ("EEXIST, rename " ++ OCULUS_BS_DIR))],
        envConflict.entries) := by rfl
  refine ⟨h1, ?_⟩
  intro e he m
  rw [h1] at he
  simp only [List.mem_singleton] at he
  subst he
  simp

/-- **C6 (amended).** For a managed-mode preparation with the library
resolved: when no entry occupies the canonical location, preparation
creates there a junction whose target is exactly the version path
resolved by the Version Repository and whose visible contents are the
version directory's files — the ownership marker is present only insofar
as the version directory contains it, none is separately written; and
when a conflicting entry occupies the canonical location while the backup
slot is taken (so it cannot be moved aside), preparation fails with a
raw filesystem error that `launch` wraps as `OCULUS_LIB_NOT_FOUND`
(PlatformLibraryNotFound), not as a LinkCreationError kind. -/
theorem prepareDowngraded_link_creation_behavior :
    (∀ (env : LaunchEnv) (es : List Dirent) (p : String),
      awaitOculusLib env.discovery = some p → (p == "") = false →
      es.any (fun d => d.name == OCULUS_BS_DIR) = false →
      prepareDowngradedVersion env es =
        (.ok (some OCULUS_BS_DIR),
         es ++ [{ name := OCULUS_BS_DIR, isJunction := true,
                  target := some env.versionPath, files := env.versionFiles }])) ∧
    (∀ (env : LaunchEnv) (es : List Dirent) (p : String),
      awaitOculusLib env.discovery = some p → (p == "") = false →
      es.any (fun d => d.name == OCULUS_BS_DIR) = true →
      es.any (fun d => d.name == OCULUS_BS_BACKUP_DIR) = true →
      ∃ m, (prepareDowngradedVersion env es).1 = .error (.raw m) ∧
        CustomError.fromError (.raw m) .OCULUS_LIB_NOT_FOUND =
          .custom .OCULUS_LIB_NOT_FOUND m) := by
  constructor
  · exact prepareDowngraded_noCanonical_eq
  · intro env es p hlib hp hcanon hbackup
    obtain ⟨e, hfind⟩ := find?_isSome_of_any es OCULUS_BS_DIR hcanon
    refine ⟨"EEXIST, rename " ++ OCULUS_BS_DIR, ?_, rfl⟩
    unfold prepareDowngradedVersion backupOriginalBeatSaber getGameFolder renameEntry
    simp [hlib, hp, hcanon, hfind, hbackup]

theorem prepareDowngraded_link_creation_witness :
    prepareDowngradedVersion envBase [entBackupDir] =
      (.ok (some OCULUS_BS_DIR),
       [entBackupDir] ++ [{ name := OCULUS_BS_DIR, isJunction := true,
                            target := some envBase.versionPath,
                            files := envBase.versionFiles }]) :=
  prepareDowngraded_link_creation_behavior.1 envBase [entBackupDir] "oculusLib"
    rfl (by decide) (by decide)

/-- **C7.** Requesting a managed version while a backup directory already
exists (and the canonical location is free, as a prior crashed run leaves
it) still succeeds: preparation completes without a duplicate-backup
error, and the backup entry — found by name — is exactly the one that was
there before, its contents untouched, because the backup step is skipped
when the canonical directory is absent and moves directories by rename,
never copy. -/
theorem prepareDowngraded_tolerates_existing_backup (env : LaunchEnv)
    (es : List Dirent) (p : String)
    (hlib : awaitOculusLib env.discovery = some p) (hp : (p == "") = false)
    (hbackup : es.any (fun d => d.name == OCULUS_BS_BACKUP_DIR) = true)
    (hcanon : es.any (fun d => d.name == OCULUS_BS_DIR) = false) :
    (prepareDowngradedVersion env es).1 = .ok (some OCULUS_BS_DIR) ∧
    (prepareDowngradedVersion env es).2.find? (fun d => d.name == OCULUS_BS_BACKUP_DIR) =
      es.find? (fun d => d.name == OCULUS_BS_BACKUP_DIR) := by
  rw [prepareDowngraded_noCanonical_eq env es p hlib hp hcanon]
  obtain ⟨b, hb⟩ := find?_isSome_of_any es OCULUS_BS_BACKUP_DIR hbackup
  refine ⟨rfl, ?_⟩
  rw [List.find?_append, hb]
  rfl

theorem prepareDowngraded_tolerates_existing_backup_witness :
    (prepareDowngradedVersion envBase [entBackupDir]).1 = .ok (some OCULUS_BS_DIR) ∧
    (prepareDowngradedVersion envBase [entBackupDir]).2.find?
        (fun d => d.name == OCULUS_BS_BACKUP_DIR) =
      [entBackupDir].find? (fun d => d.name == OCULUS_BS_BACKUP_DIR) :=
  prepareDowngraded_tolerates_existing_backup envBase [entBackupDir] "oculusLib"
    rfl (by decide) (by decide) (by decide)

/-- **C8 (counterexample).** The claim's unconditional no-marker
postcondition is false: with stale cleanup failing (here the discovery
subject hangs, and cleanup failures are non-fatal by design), no backup
to restore, and a stale orchestrator-owned junction at the canonical
install location, a native-mode launch runs preparation to success — the
stream even reaches `BS_LAUNCHING` and completes — yet the canonical
install path still holds the marker-bearing junction afterwards. -/
theorem launch_native_stale_marker_counterexample :
    launch envStaleMarker = ([.next .BS_LAUNCHING, .completed], [entManagedLink]) ∧
    envStaleMarker.versionIsOculus = true ∧
    (launch envStaleMarker).2.find? (fun d => d.name == OCULUS_BS_DIR) =
      some entManagedLink ∧
    isBsmSymlink entManagedLink = true := by
  refine ⟨by rfl, rfl, by rfl, by decide⟩

/-- **C8 (amended).** Restore semantics. (i) `restoreOriginalBeatSaber`
is a no-op when no backup directory exists. (ii) When a backup exists and
the canonical location is free, it renames the backup entry to the
canonical name in place — contents travel with the entry, nothing is
copied. (iii) In the pipeline, after a *successful* stale cleanup,
native-mode preparation leaves no orchestrator-owned link
(marker-bearing prefix-matching junction) at the canonical install
location; the success proviso is forced by the counterexample, where a
non-fatally failed cleanup lets a stale marked junction survive
preparation. -/
theorem restoreOriginal_native_mode_properties :
    (∀ es : List Dirent,
      es.any (fun d => d.name == OCULUS_BS_BACKUP_DIR) = false →
      restoreOriginalBeatSaber es = .ok es) ∧
    (∀ es : List Dirent,
      es.any (fun d => d.name == OCULUS_BS_BACKUP_DIR) = true →
      es.any (fun d => d.name == OCULUS_BS_DIR) = false →
      restoreOriginalBeatSaber es =
        .ok (es.map (fun d =>
          if d.name == OCULUS_BS_BACKUP_DIR then { d with name := OCULUS_BS_DIR } else d))) ∧
    (∀ (p : String) (ex : Bool) (es es1 : List Dirent) (bp : Option String)
        (es2 : List Dirent),
      deleteBsSymlinks (some p) ex es = .ok es1 →
      prepareOriginalVersion es1 = (.ok bp, es2) →
      ∀ d ∈ es2, d.name = OCULUS_BS_DIR → isBsmSymlink d = false) := by
  refine ⟨?_, ?_, ?_⟩
  · intro es hnb
    unfold restoreOriginalBeatSaber getGameFolder
    simp [hnb]
  · intro es hb hc
    obtain ⟨e, hfind⟩ := find?_isSome_of_any es OCULUS_BS_BACKUP_DIR hb
    unfold restoreOriginalBeatSaber getGameFolder renameEntry
    simp [hb, hc, hfind]
  · intro p ex es es1 bp es2 hclean hprep d hd hname
    have hns : ∀ d ∈ es1, isBsmSymlink d = false :=
      deleteBs_ok_mem_not_bsm p ex es es1 hclean
    unfold prepareOriginalVersion at hprep
    cases hres : restoreOriginalBeatSaber es1 with
    | error m =>
      rw [hres] at hprep
      exact absurd (congrArg Prod.fst hprep) (by simp)
    | ok es1' =>
      rw [hres] at hprep
      have hes2 : es2 = es1' := (congrArg Prod.snd hprep).symm
      subst hes2
      unfold restoreOriginalBeatSaber getGameFolder at hres
      cases hb : es1.any (fun x => x.name == OCULUS_BS_BACKUP_DIR) with
      | false =>
        rw [hb] at hres
        simp at hres
        subst hres
        exact hns d hd
      | true =>
        rw [hb] at hres
        simp only [if_true] at hres
        unfold renameEntry at hres
        obtain ⟨e, hfind⟩ := find?_isSome_of_any es1 OCULUS_BS_BACKUP_DIR hb
        rw [hfind] at hres
        cases hc : es1.any (fun x => x.name == OCULUS_BS_DIR) with
        | true => rw [hc] at hres; simp at hres
        | false =>
          rw [hc] at hres
          simp only [Bool.false_eq_true, if_false, Except.ok.injEq] at hres
          subst hres
          obtain ⟨x, hx, hxd⟩ := List.mem_map.mp hd
          have hxn : isBsmSymlink x = false := hns x hx
          by_cases hxb : (x.name == OCULUS_BS_BACKUP_DIR) = true
          · rw [if_pos hxb] at hxd
            subst hxd
            rw [beq_iff_eq] at hxb
            unfold isBsmSymlink at hxn ⊢
            rw [hxb, backup_strStartsWith_canonical] at hxn
            rw [canonical_strStartsWith_canonical]
            simpa using hxn
          · rw [if_neg hxb] at hxd
            subst hxd
            exact hns x hx

theorem restoreOriginal_native_mode_witness :
    restoreOriginalBeatSaber [entOriginalDir] = .ok [entOriginalDir] ∧
    restoreOriginalBeatSaber [entBackupDir] =
      .ok ([entBackupDir].map (fun d =>
        if d.name == OCULUS_BS_BACKUP_DIR then { d with name := OCULUS_BS_DIR } else d)) ∧
    isBsmSymlink entOriginalDir = false :=
  ⟨restoreOriginal_native_mode_properties.1 [entOriginalDir] (by decide),
   restoreOriginal_native_mode_properties.2.1 [entBackupDir] (by decide) (by decide),
   restoreOriginal_native_mode_properties.2.2 "oculusLib" true
     [entManagedLink, entBackupDir] [entBackupDir] (some OCULUS_BS_DIR) [entOriginalDir]
     (by rfl) (by rfl) entOriginalDir (by decide) (by rfl)⟩

end OculusLauncher
